import Mathlib

/-!
Verification of the TaxEngine core of the taxplanning repository
(`src/taxation_tool.py`, with its caller `src/app.py`).

Shallow embedding conventions:
* Python numbers (`float`) are modelled as exact rationals `ℚ`; the decimal
  literals of the source (`0.05`, `0.04`, ...) are exact in `ℚ`.
* `float('inf')`, used only as the upper bound of the final tax slab, is
  modelled by `Option ℚ` with `none` for infinity: `min (t - base) (inf - base)`
  is `t - base` and `t <= inf` is true, which is exactly how the two
  occurrences in the loop behave on finite `t`.
* Python dicts of type `Dict[str, float]` are modelled as association lists
  `List (String × ℚ)`; `d.get(k, 0)` is `(d.lookup k).getD 0` and
  `sum(d.values())` is `(d.map Prod.snd).sum`.
* A raised Python exception is modelled as the `error` branch of `Except`:
  `KeyError` from the `self.tax_slabs[regime]` subscript, `TypeError` from the
  dynamically-typed comparison `current < details['limit']` when the limit is
  the string `'Based on Rules'`.
* The f-string slab label `f"{base+1}-{slab_limit}"` and the percent string
  `f"{rate*100}%"` are modelled by their numeric content (`base + 1`, the
  optional upper bound, `rate * 100`).
-/

namespace TaxPlanning

instance {ε α : Type} [DecidableEq ε] [DecidableEq α] : DecidableEq (Except ε α) :=
  fun a b =>
    match a, b with
    | .ok x, .ok y =>
      if h : x = y then .isTrue (by simp [h]) else .isFalse (by simp [h])
    | .error x, .error y =>
      if h : x = y then .isTrue (by simp [h]) else .isFalse (by simp [h])
    | .ok _, .error _ => .isFalse (by simp)
    | .error _, .ok _ => .isFalse (by simp)

/-- One tax bracket `(slab_limit, base, rate)` of `TaxCalculator.tax_slabs`;
`limit = none` models the `float('inf')` upper bound of the final bracket. -/
structure Slab where
  limit : Option ℚ
  base : ℚ
  rate : ℚ
deriving DecidableEq

/-- The `'old'` entry of `TaxCalculator.tax_slabs` (`taxation_tool.py` lines 14-22). -/
def old_slabs : List Slab :=
  [⟨some 250000, 0, 0⟩,
   ⟨some 500000, 250000, 0.05⟩,
   ⟨some 750000, 500000, 0.10⟩,
   ⟨some 1000000, 750000, 0.15⟩,
   ⟨some 1250000, 1000000, 0.20⟩,
   ⟨some 1500000, 1250000, 0.25⟩,
   ⟨none, 1500000, 0.30⟩]

/-- The `'new'` entry of `TaxCalculator.tax_slabs` (`taxation_tool.py` lines 23-30). -/
def new_slabs : List Slab :=
  [⟨some 300000, 0, 0⟩,
   ⟨some 600000, 300000, 0.05⟩,
   ⟨some 900000, 600000, 0.10⟩,
   ⟨some 1200000, 900000, 0.15⟩,
   ⟨some 1500000, 1200000, 0.20⟩,
   ⟨none, 1500000, 0.30⟩]

/-- The dict subscript `self.tax_slabs[regime]`: `none` models the `KeyError`
raised on a key outside `{'old', 'new'}`. -/
def tax_slabs (regime : String) : Option (List Slab) :=
  if regime = "old" then some old_slabs
  else if regime = "new" then some new_slabs
  else none

/-- One entry of the `tax_breakup` list: the slab label `f"{base+1}-{slab_limit}"`
is modelled by its numeric content `(slab_lo, slab_hi)`, the rate string
`f"{rate*100}%"` by `rate_percent`. -/
structure BreakupEntry where
  slab_lo : ℚ
  slab_hi : Option ℚ
  rate_percent : ℚ
  tax : ℚ
deriving DecidableEq

/-- The dict returned by `TaxCalculator.calculate_tax` (lines 72-80). -/
structure TaxResult where
  gross_income : ℚ
  total_deductions : ℚ
  taxable_income : ℚ
  tax_breakup : List BreakupEntry
  base_tax : ℚ
  cess : ℚ
  total_tax : ℚ
deriving DecidableEq

instance : Inhabited TaxResult := ⟨⟨0, 0, 0, [], 0, 0, 0⟩⟩

/-- Exceptions raised by `calculate_tax`: only the `KeyError` from
`self.tax_slabs[regime]`. -/
inductive TaxError where
  | keyError (key : String)
deriving DecidableEq

/-- The slab `for`-loop of `calculate_tax` (lines 55-67), returning the
accumulated `tax` and the `tax_breakup` list.  For each slab with
`taxable_income > base` the amount `min(taxable_income - base, slab_limit - base)`
is taxed at `rate` and a breakup entry appended; the loop breaks once
`taxable_income <= slab_limit`, and otherwise continues to the next slab. -/
def slab_loop : List Slab → ℚ → ℚ × List BreakupEntry
  | [], _ => (0, [])
  | s :: rest, ti =>
    if s.base < ti then
      match s.limit with
      | none =>
        ((ti - s.base) * s.rate,
         [⟨s.base + 1, none, s.rate * 100, (ti - s.base) * s.rate⟩])
      | some l =>
        if ti ≤ l then
          (min (ti - s.base) (l - s.base) * s.rate,
           [⟨s.base + 1, some l, s.rate * 100, min (ti - s.base) (l - s.base) * s.rate⟩])
        else
          (min (ti - s.base) (l - s.base) * s.rate + (slab_loop rest ti).1,
           ⟨s.base + 1, some l, s.rate * 100, min (ti - s.base) (l - s.base) * s.rate⟩ ::
             (slab_loop rest ti).2)
    else slab_loop rest ti

/-- `TaxCalculator.calculate_tax` (lines 39-80).  `total_deductions` is the sum
of the deduction values; `taxable_income` subtracts it only under the old
regime; the slab table subscript raises `KeyError` for any other regime; cess
is a flat 4% of the base tax. -/
def calculate_tax (income : ℚ) (deductions : List (String × ℚ))
    (regime : String) : Except TaxError TaxResult :=
  let total_deductions := (deductions.map Prod.snd).sum
  let taxable_income := income - (if regime = "old" then total_deductions else 0)
  match tax_slabs regime with
  | none => .error (.keyError regime)
  | some slabs =>
    let r := slab_loop slabs taxable_income
    .ok { gross_income := income
          total_deductions := total_deductions
          taxable_income := taxable_income
          tax_breakup := r.2
          base_tax := r.1
          cess := r.1 * 0.04
          total_tax := r.1 + r.1 * 0.04 }

/-- The MCP tool `calculate_tax_liability` (`taxation_tool.py` lines 150-157):
it forwards to `calculate_tax` and catches every exception, returning the empty
dict `{}` — modelled as `none` — to the caller. -/
def calculate_tax_liability (income : ℚ) (deductions : List (String × ℚ))
    (regime : String) : Option TaxResult :=
  match calculate_tax income deductions regime with
  | .ok r => some r
  | .error _ => none

/-- The value under the `'limit'` key of a `self.deductions` entry: a number,
or the string `'Based on Rules'` for HRA. -/
inductive Limit where
  | fin (cap : ℚ)
  | ruleBased
deriving DecidableEq

/-- `TaxCalculator.deductions` (lines 32-37): section name, limit, items. -/
def deductions_catalog : List (String × Limit × List String) :=
  [("80C", .fin 150000, ["PPF", "ELSS", "Life Insurance", "EPF"]),
   ("80D", .fin 25000, ["Health Insurance"]),
   ("80TTA", .fin 10000, ["Savings Account Interest"]),
   ("HRA", .ruleBased, ["House Rent"])]

/-- Exceptions raised by `get_recommendations`: the `TypeError` from comparing
a number with the string limit `'Based on Rules'`. -/
inductive PyError where
  | typeError
deriving DecidableEq

/-- The Python comparison `current < details['limit']`: defined when the limit
is numeric, a `TypeError` when the limit is the string `'Based on Rules'`
(Python 3 does not order a `float` against a `str`). -/
def lt_limit (current : ℚ) : Limit → Except PyError Bool
  | .fin cap => .ok (decide (current < cap))
  | .ruleBased => .error .typeError

/-- One element of the list built by `get_recommendations` (lines 97-102). -/
structure Recommendation where
  section_name : String
  current_utilization : ℚ
  remaining_limit : ℚ
  suggested_instruments : List String
deriving DecidableEq

/-- The `for`-loop of `get_recommendations` (lines 93-102): for each catalog
section, `current = current_deductions.get(section, 0)`; the guard
`current < details['limit'] or details['limit'] == 'Based on Rules'` evaluates
its left operand first, so a rule-based limit raises `TypeError` before the
equality test is reached. -/
def rec_loop (current_deductions : List (String × ℚ)) :
    List (String × Limit × List String) → Except PyError (List Recommendation)
  | [] => .ok []
  | (sec, lim, items) :: rest =>
    let current := (current_deductions.lookup sec).getD 0
    match lt_limit current lim with
    | .error e => .error e
    | .ok lt =>
      match rec_loop current_deductions rest with
      | .error e => .error e
      | .ok tail =>
        if lt || decide (lim = Limit.ruleBased) then
          let remaining := match lim with
            | .fin cap => cap - current
            | .ruleBased => 0
          .ok (⟨sec, current, remaining, items⟩ :: tail)
        else .ok tail

set_option linter.unusedVariables false in
/-- `TaxCalculator.get_recommendations` (lines 82-104).  `income` is accepted
but unused, as in the source. -/
def get_recommendations (income : ℚ) (current_deductions : List (String × ℚ)) :
    Except PyError (List Recommendation) :=
  rec_loop current_deductions deductions_catalog

/-- The dict returned by the regime comparison used in `app.py` lines 43-48. -/
structure ComparisonResult where
  old_regime : TaxResult
  new_regime : TaxResult
  recommended_regime : String
  savings : ℚ
deriving DecidableEq

/-- Modelled from the spec: `compare_tax_regimes` is invoked by `src/app.py`
(line 43) but defined nowhere in the repository's source.  Per §4.1 of the
design it calls `calculateTax` once per regime on the same raw inputs,
recommends the regime whose `totalTax` is lower with the old regime as the tie
default, and reports `savings = |totalTaxOld − totalTaxNew|`, returning both
results together with the derived fields. -/
def compare_tax_regimes (income : ℚ) (deductions : List (String × ℚ)) :
    ComparisonResult :=
  let o := (calculate_tax income deductions "old").toOption.getD default
  let n := (calculate_tax income deductions "new").toOption.getD default
  { old_regime := o
    new_regime := n
    recommended_regime := if o.total_tax ≤ n.total_tax then "old" else "new"
    savings := |o.total_tax - n.total_tax| }

/-- Well-formedness of a slab table starting at lower bound `b`: each slab's
`base` is `b`, rates are non-negative, a finite `limit` is at least `b` and is
the next slab's lower bound, and the infinite slab (if any) comes last.  Both
tables of the source satisfy `Chain 0`. -/
inductive Chain : ℚ → List Slab → Prop
  | nil (b : ℚ) : Chain b []
  | last (b r : ℚ) (hr : 0 ≤ r) : Chain b [⟨none, b, r⟩]
  | cons (b l r : ℚ) (rest : List Slab) (hr : 0 ≤ r) (hbl : b ≤ l)
      (h : Chain l rest) : Chain b (⟨some l, b, r⟩ :: rest)

lemma chain_old_slabs : Chain 0 old_slabs := by
  unfold old_slabs
  apply Chain.cons _ _ _ _ (by norm_num) (by norm_num)
  apply Chain.cons _ _ _ _ (by norm_num) (by norm_num)
  apply Chain.cons _ _ _ _ (by norm_num) (by norm_num)
  apply Chain.cons _ _ _ _ (by norm_num) (by norm_num)
  apply Chain.cons _ _ _ _ (by norm_num) (by norm_num)
  apply Chain.cons _ _ _ _ (by norm_num) (by norm_num)
  exact Chain.last _ _ (by norm_num)

lemma chain_new_slabs : Chain 0 new_slabs := by
  unfold new_slabs
  apply Chain.cons _ _ _ _ (by norm_num) (by norm_num)
  apply Chain.cons _ _ _ _ (by norm_num) (by norm_num)
  apply Chain.cons _ _ _ _ (by norm_num) (by norm_num)
  apply Chain.cons _ _ _ _ (by norm_num) (by norm_num)
  apply Chain.cons _ _ _ _ (by norm_num) (by norm_num)
  exact Chain.last _ _ (by norm_num)

lemma tax_slabs_chain {regime : String} {slabs : List Slab}
    (h : tax_slabs regime = some slabs) : Chain 0 slabs := by
  unfold tax_slabs at h
  split_ifs at h
  · exact (Option.some.injEq _ _ ▸ h) ▸ chain_old_slabs
  · exact (Option.some.injEq _ _ ▸ h) ▸ chain_new_slabs

/-- Below the first lower bound every slab is skipped and the loop accumulates
no tax. -/
lemma slab_loop_tax_eq_zero : ∀ {b : ℚ} {slabs : List Slab}, Chain b slabs →
    ∀ t : ℚ, t ≤ b → (slab_loop slabs t).1 = 0 := by
  intro b slabs h
  induction h with
  | nil b => intro t ht; simp [slab_loop]
  | last b r hr =>
    intro t ht
    simp only [slab_loop, if_neg (not_lt.mpr ht)]
  | cons b l r rest hr hbl hch ih =>
    intro t ht
    simp only [slab_loop, if_neg (not_lt.mpr ht)]
    exact ih t (ht.trans hbl)

/-- The accumulated tax of the slab loop is never negative. -/
lemma slab_loop_tax_nonneg : ∀ {b : ℚ} {slabs : List Slab}, Chain b slabs →
    ∀ t : ℚ, 0 ≤ (slab_loop slabs t).1 := by
  intro b slabs h
  induction h with
  | nil b => intro t; simp [slab_loop]
  | last b r hr =>
    intro t
    simp only [slab_loop]
    split_ifs with h1
    · exact mul_nonneg (by linarith) hr
    · simp [slab_loop]
  | cons b l r rest hr hbl hch ih =>
    intro t
    simp only [slab_loop]
    split_ifs with h1 h2
    · exact mul_nonneg (le_min (by linarith) (by linarith)) hr
    · exact add_nonneg (mul_nonneg (le_min (by linarith) (by linarith)) hr) (ih t)
    · exact ih t

/-- The accumulated tax of the slab loop is monotone in the taxable income. -/
lemma slab_loop_tax_mono : ∀ {b : ℚ} {slabs : List Slab}, Chain b slabs →
    ∀ t1 t2 : ℚ, t1 ≤ t2 → (slab_loop slabs t1).1 ≤ (slab_loop slabs t2).1 := by
  intro b slabs h
  induction h with
  | nil b => intro t1 t2 h12; simp [slab_loop]
  | last b r hr =>
    intro t1 t2 h12
    simp only [slab_loop]
    split_ifs with h1 h2 h2
    · exact mul_le_mul_of_nonneg_right (by linarith) hr
    · linarith
    · simp only [slab_loop]
      exact mul_nonneg (by linarith) hr
    · simp [slab_loop]
  | cons b l r rest hr hbl hch ih =>
    intro t1 t2 h12
    simp only [slab_loop]
    split_ifs with h1 h2 h3 h4 h3 h4 h2 h3
    · exact mul_le_mul_of_nonneg_right (min_le_min (by linarith) le_rfl) hr
    · calc min (t1 - b) (l - b) * r ≤ min (t2 - b) (l - b) * r :=
            mul_le_mul_of_nonneg_right (min_le_min (by linarith) le_rfl) hr
        _ ≤ min (t2 - b) (l - b) * r + (slab_loop rest t2).1 :=
            le_add_of_nonneg_right (slab_loop_tax_nonneg hch t2)
    · linarith
    · linarith
    · rw [min_eq_right (by linarith : l - b ≤ t1 - b),
        min_eq_right (by linarith : l - b ≤ t2 - b)]
      exact add_le_add_left (ih t1 t2 h12) _
    · linarith
    · rw [slab_loop_tax_eq_zero hch t1 (by linarith)]
      exact mul_nonneg (le_min (by linarith) (by linarith)) hr
    · rw [slab_loop_tax_eq_zero hch t1 (by linarith)]
      exact add_nonneg (mul_nonneg (le_min (by linarith) (by linarith)) hr)
        (slab_loop_tax_nonneg hch t2)
    · exact ih t1 t2 h12

/-- Unfolding `calculate_tax` for the old regime: the lookup succeeds and the
result fields are as computed from `slab_loop old_slabs`. -/
lemma calc_old_eq (i : ℚ) (d : List (String × ℚ)) :
    calculate_tax i d "old" = .ok
      { gross_income := i
        total_deductions := (d.map Prod.snd).sum
        taxable_income := i - (d.map Prod.snd).sum
        tax_breakup := (slab_loop old_slabs (i - (d.map Prod.snd).sum)).2
        base_tax := (slab_loop old_slabs (i - (d.map Prod.snd).sum)).1
        cess := (slab_loop old_slabs (i - (d.map Prod.snd).sum)).1 * 0.04
        total_tax := (slab_loop old_slabs (i - (d.map Prod.snd).sum)).1 +
          (slab_loop old_slabs (i - (d.map Prod.snd).sum)).1 * 0.04 } := rfl

/-- Unfolding `calculate_tax` for the new regime: deductions are not
subtracted (`taxable_income = i - 0`). -/
lemma calc_new_eq (i : ℚ) (d : List (String × ℚ)) :
    calculate_tax i d "new" = .ok
      { gross_income := i
        total_deductions := (d.map Prod.snd).sum
        taxable_income := i - 0
        tax_breakup := (slab_loop new_slabs (i - 0)).2
        base_tax := (slab_loop new_slabs (i - 0)).1
        cess := (slab_loop new_slabs (i - 0)).1 * 0.04
        total_tax := (slab_loop new_slabs (i - 0)).1 +
          (slab_loop new_slabs (i - 0)).1 * 0.04 } := rfl

/-- The recommendation loop reaches the HRA entry of the catalog on every
input and its cap comparison raises `TypeError`, so the loop always fails. -/
lemma rec_loop_catalog_error (cd : List (String × ℚ)) :
    rec_loop cd deductions_catalog = .error .typeError := by
  simp [rec_loop, deductions_catalog, lt_limit]

/-- C1: the regime comparison computes the old-regime and new-regime results
via `calculate_tax` on the same raw inputs, recommends the regime with the
lower total tax (the old regime on a tie), reports savings equal to the
absolute difference of the two total taxes, and returns both results together
with the derived fields.  (`compare_tax_regimes` is modelled from the spec, as
it is called by `app.py` but defined nowhere in the source.) -/
theorem compare_tax_regimes_spec (income : ℚ) (d : List (String × ℚ)) :
    calculate_tax income d "old" = .ok (compare_tax_regimes income d).old_regime ∧
    calculate_tax income d "new" = .ok (compare_tax_regimes income d).new_regime ∧
    (compare_tax_regimes income d).recommended_regime =
      (if (compare_tax_regimes income d).old_regime.total_tax ≤
          (compare_tax_regimes income d).new_regime.total_tax
       then "old" else "new") ∧
    (compare_tax_regimes income d).savings =
      |(compare_tax_regimes income d).old_regime.total_tax -
        (compare_tax_regimes income d).new_regime.total_tax| := by
  refine ⟨?_, ?_, ?_, ?_⟩ <;>
    simp [compare_tax_regimes, calc_old_eq, calc_new_eq, Except.toOption]

/-- C2: on income 600000 with deductions 80C = 150000 and 80D = 25000 under
the old regime, `calculate_tax` returns taxable income 425000, base tax 8750,
cess 350 and total tax 9100. -/
theorem calculate_tax_example_old_regime :
    calculate_tax 600000 [("80C", 150000), ("80D", 25000)] "old" =
    .ok { gross_income := 600000
          total_deductions := 175000
          taxable_income := 425000
          tax_breakup := [⟨1, some 250000, 0, 0⟩, ⟨250001, some 500000, 5, 8750⟩]
          base_tax := 8750
          cess := 350
          total_tax := 9100 } := by
  norm_num [calculate_tax, tax_slabs, old_slabs, slab_loop, min_def]

/-- C3: evaluating the code at income 100000 with 150000 of old-regime
deductions shows that the taxable income is NOT floored at zero: the returned
`taxable_income` is the negative value -50000 (the zero tax arises only from
every slab being skipped). -/
theorem calculate_tax_no_floor_eval :
    calculate_tax 100000 [("80C", 150000)] "old" =
      .ok { gross_income := 100000
            total_deductions := 150000
            taxable_income := -50000
            tax_breakup := []
            base_tax := 0
            cess := 0
            total_tax := 0 } ∧ (-50000 : ℚ) < 0 := by
  refine ⟨?_, by norm_num⟩
  norm_num [calculate_tax, tax_slabs, old_slabs, slab_loop]

/-- C4 counterexample: for the out-of-range regime `"middle"` the code does
not report a structured `InvalidRegime` failure: `calculate_tax` fails with a
raw `KeyError` from the slab-table subscript, and the tool wrapper
`calculate_tax_liability` swallows it and hands the caller the empty dict,
which carries no failure kind. -/
theorem invalid_regime_counterexample :
    calculate_tax 500000 [("80C", 10000)] "middle" =
      .error (.keyError "middle") ∧
    calculate_tax_liability 500000 [("80C", 10000)] "middle" = none := by
  exact ⟨rfl, rfl⟩

/-- C4 amended: for every regime outside {old, new}, `calculate_tax` raises a
`KeyError` at the slab-table lookup, and `calculate_tax_liability` catches the
exception and returns the empty dict (no failure kind) to the caller. -/
theorem invalid_regime_keyError (income : ℚ) (d : List (String × ℚ))
    (regime : String) (h1 : regime ≠ "old") (h2 : regime ≠ "new") :
    calculate_tax income d regime = .error (.keyError regime) ∧
    calculate_tax_liability income d regime = none := by
  have ht : tax_slabs regime = none := by simp [tax_slabs, h1, h2]
  have hc : calculate_tax income d regime = .error (.keyError regime) := by
    simp [calculate_tax, ht]
  exact ⟨hc, by simp [calculate_tax_liability, hc]⟩

theorem invalid_regime_keyError_witness :
    calculate_tax 500000 [] "middle" = .error (.keyError "middle") ∧
    calculate_tax_liability 500000 [] "middle" = none :=
  invalid_regime_keyError 500000 [] "middle" (by decide) (by decide)

/-- C5 counterexample: a call with negative income AND a negative deduction is
not rejected: `calculate_tax` produces an ordinary `TaxResult`. -/
theorem negative_input_counterexample :
    calculate_tax (-100) [("80C", -50)] "old" =
      .ok { gross_income := -100
            total_deductions := -50
            taxable_income := -50
            tax_breakup := []
            base_tax := 0
            cess := 0
            total_tax := 0 } := by
  norm_num [calculate_tax, tax_slabs, old_slabs, slab_loop]

/-- C5 amended: `calculate_tax` performs no sign validation at all — for every
income and deductions mapping (of any sign) and a valid regime it returns a
`TaxResult`, never a rejection. -/
theorem calculate_tax_accepts_any_sign (income : ℚ) (d : List (String × ℚ)) :
    (∃ r : TaxResult, calculate_tax income d "old" = .ok r) ∧
    (∃ r : TaxResult, calculate_tax income d "new" = .ok r) :=
  ⟨⟨_, calc_old_eq income d⟩, ⟨_, calc_new_eq income d⟩⟩

/-- C6: under the new regime the deductions argument has no influence on the
taxable income or the total tax of the result. -/
theorem new_regime_deduction_independence (income : ℚ)
    (d1 d2 : List (String × ℚ)) (r1 r2 : TaxResult)
    (h1 : calculate_tax income d1 "new" = .ok r1)
    (h2 : calculate_tax income d2 "new" = .ok r2) :
    r1.taxable_income = r2.taxable_income ∧ r1.total_tax = r2.total_tax := by
  rw [calc_new_eq] at h1 h2
  injection h1 with h1
  injection h2 with h2
  subst h1
  subst h2
  exact ⟨rfl, rfl⟩

theorem new_regime_deduction_independence_witness :
    ((calculate_tax 700000 [("80C", 50000)] "new").toOption.getD
        default).taxable_income =
      ((calculate_tax 700000 [] "new").toOption.getD default).taxable_income ∧
    ((calculate_tax 700000 [("80C", 50000)] "new").toOption.getD
        default).total_tax =
      ((calculate_tax 700000 [] "new").toOption.getD default).total_tax :=
  new_regime_deduction_independence 700000 [("80C", 50000)] [] _ _ rfl rfl

/-- C7: for a fixed regime and fixed deductions, the total tax returned by
`calculate_tax` is monotonically non-decreasing in income. -/
theorem total_tax_monotone_in_income (regime : String) (d : List (String × ℚ))
    (i1 i2 : ℚ) (h : i1 ≤ i2) (r1 r2 : TaxResult)
    (h1 : calculate_tax i1 d regime = .ok r1)
    (h2 : calculate_tax i2 d regime = .ok r2) :
    r1.total_tax ≤ r2.total_tax := by
  rcases htab : tax_slabs regime with _ | slabs
  · simp [calculate_tax, htab] at h1
  · simp only [calculate_tax, htab, Except.ok.injEq] at h1 h2
    subst h1
    subst h2
    have hch := tax_slabs_chain htab
    have hm := slab_loop_tax_mono hch
      (i1 - (if regime = "old" then (d.map Prod.snd).sum else 0))
      (i2 - (if regime = "old" then (d.map Prod.snd).sum else 0))
      (sub_le_sub_right h _)
    have hm4 := mul_le_mul_of_nonneg_right hm (by norm_num : (0 : ℚ) ≤ 0.04)
    dsimp only
    linarith

theorem total_tax_monotone_in_income_witness :
    ((calculate_tax 400000 [("80C", 100000)] "old").toOption.getD
        default).total_tax ≤
      ((calculate_tax 900000 [("80C", 100000)] "old").toOption.getD
        default).total_tax :=
  total_tax_monotone_in_income "old" [("80C", 100000)] 400000 900000
    (by norm_num) _ _ rfl rfl

/-- C8: at the spec's example input (80C fully utilized, 80D at zero) the
recommendation operation does not return a list at all: the loop raises
`TypeError` when it compares the numeric utilization of HRA against the string
cap `'Based on Rules'`, so no recommendation is ever emitted. -/
theorem get_recommendations_raises_at_example :
    get_recommendations 500000 [("80C", 150000), ("80D", 0)] =
      .error .typeError :=
  rec_loop_catalog_error _

/-- C9: for every income and deductions mapping, `get_recommendations` fails
with `TypeError` (raised at the HRA cap comparison), so it never returns the
claimed non-empty sequence containing an HRA entry. -/
theorem get_recommendations_always_raises (income : ℚ)
    (cd : List (String × ℚ)) :
    get_recommendations income cd = .error PyError.typeError :=
  rec_loop_catalog_error cd

/-- C10: entries whose section name is outside the fixed catalog have no
effect on the output of `get_recommendations`. -/
theorem unknown_sections_no_effect (income : ℚ) (d extra : List (String × ℚ))
    (_h : ∀ p ∈ extra, p.1 ∉ ["80C", "80D", "80TTA", "HRA"]) :
    get_recommendations income (d ++ extra) = get_recommendations income d := by
  show rec_loop (d ++ extra) deductions_catalog = rec_loop d deductions_catalog
  rw [rec_loop_catalog_error, rec_loop_catalog_error]

theorem unknown_sections_no_effect_witness :
    get_recommendations 0 ([("80C", 1)] ++ [("junk", 5)]) =
      get_recommendations 0 [("80C", 1)] :=
  unknown_sections_no_effect 0 [("80C", 1)] [("junk", 5)] (by decide)

end TaxPlanning
